import Mathlib

/-!
Verification development for the actuation and safety-control layer of the
wit_robotics_2025 combat-robot firmware: a shallow embedding of
`src/hardware/motor.c`, `src/hardware/motor_controller.c` and the control-mapping
part of `src/my_platform.c`, together with theorems about the embedded code.

Modelling conventions:
* C `int` is `Int`; unsigned millisecond timestamps (`uint32_t`) are `Nat`, with
  the unsigned difference `now - last` modelled by truncated `Nat` subtraction
  (faithful to the C value whenever `now` is at or after `last`, i.e. under the
  monotonic clock of the target; 32-bit wraparound after 49.7 days is outside
  the windows any theorem here talks about).
* The C code reads the clock internally via `to_ms_since_boot(get_absolute_time())`;
  the embedding passes that reading in as an explicit `now : Nat` parameter.
* `float` arithmetic in `motor.c` is modelled by exact rational arithmetic
  (`Rat`), with the C truncating cast `(uint16_t)` modelled by `Int.floor`
  followed by `Int.toNat` (the value being non-negative at every use site).
  Every theorem below evaluates this model only at points where the float
  computation of the source is exact (throttle values 0, 1/2, 1 and products
  of those with spans at most 1200), so the rational model and the float
  source agree at every evaluation point used.
* Hardware writes (`pwm_set_chan_level`) are modelled by recording the written
  level in the `hw_level` field of the motor state; `printf` logging is pure
  output and is not modelled, except that the `g_last_countdown` bookkeeping
  that drives it is kept.
-/

namespace Wit

/-! Configuration constants from `src/config/config.h` and `src/hardware/motor.h`. -/

def ESC_ABS_MIN_US : Nat := 900
def ESC_ABS_MAX_US : Nat := 2100
def PWM_WRAP : Nat := 20000
def DRIVE_MIN_US : Nat := 1000
def DRIVE_MID_US : Nat := 1500
def DRIVE_MAX_US : Nat := 2000
def WEAPON_MIN_US : Nat := 1000
def WEAPON_MID_US : Nat := 1500
def WEAPON_MAX_US : Nat := 2000
def MOTOR_BIDIRECTIONAL : Bool := true
def MOTOR_INVERT_SIGNAL : Bool := false
def MOTOR_MAX_SPEED : Int := 100
def MOTOR_DEADBAND : Int := 10
def FAILSAFE_ENABLED : Bool := true
def FAILSAFE_TIMEOUT_MS : Nat := 500
def ARM_HOLD_TIME_MS : Nat := 5000
def STICK_MIN : Int := -512
def STICK_MAX : Int := 511
def TRIGGER_MAX : Int := 1023
def THROTTLE_INVERT : Int := -1

/-! Embedding of `motor_t` and the functions of `src/hardware/motor.c`.
GPIO/PWM-slice bookkeeping fields are configuration-only in the source and are
omitted; `hw_level` records the last level written to the PWM hardware. -/

structure Motor where
  min_us : Nat
  mid_us : Nat
  max_us : Nat
  last_throttle : Rat
  armed : Bool
  hw_level : Nat
  deriving Repr, DecidableEq

/-- Embeds `motor_set_pulse_us`: clamp to the absolute safety limits, then write
the (possibly inverted) level to the PWM channel. -/
def motor_set_pulse_us (motor : Motor) (us : Nat) : Motor :=
  let us := if us < ESC_ABS_MIN_US then ESC_ABS_MIN_US
            else if us > ESC_ABS_MAX_US then ESC_ABS_MAX_US
            else us
  let level := if MOTOR_INVERT_SIGNAL then PWM_WRAP - us else us
  { motor with hw_level := level }

/-- Embeds `motor_set_throttle`: clamp the throttle to [0, 1], map linearly onto
the pulse range, write the pulse, record the throttle. -/
def motor_set_throttle (motor : Motor) (throttle : Rat) : Motor :=
  let throttle := if throttle < 0 then 0 else if throttle > 1 then 1 else throttle
  let us : Nat := motor.min_us + (⌊throttle * ((motor.max_us : Rat) - (motor.min_us : Rat))⌋).toNat
  { motor_set_pulse_us motor us with last_throttle := throttle }

/-- Embeds `motor_set_speed`: clamp the speed to [-100, 100]; bidirectional maps
-100..100 to throttle 0..1 (0.5 = stopped), unidirectional uses the absolute
value over 100. -/
def motor_set_speed (motor : Motor) (speed : Int) (bidirectional : Bool) : Motor :=
  let speed := if speed < -100 then -100 else if speed > 100 then 100 else speed
  let throttle : Rat :=
    if bidirectional then ((speed : Rat) + 100) / 200
    else ((if speed < 0 then -speed else speed : Int) : Rat) / 100
  motor_set_throttle motor throttle

/-- Embeds `motor_stop`: mid pulse for bidirectional, min pulse for
unidirectional, and record the corresponding throttle. -/
def motor_stop (motor : Motor) (bidirectional : Bool) : Motor :=
  let motor := if bidirectional then motor_set_pulse_us motor motor.mid_us
               else motor_set_pulse_us motor motor.min_us
  { motor with last_throttle := if bidirectional then 1/2 else 0 }

/-- Embeds `motor_arm`. -/
def motor_arm (motor : Motor) : Motor := { motor with armed := true }

/-- Embeds `motor_disarm`. -/
def motor_disarm (motor : Motor) : Motor := { motor with armed := false }

/-- Embeds `motor_init` (the GPIO/PWM configuration calls have no observable
state here): record the bounds, zero the throttle, clear armed, and write the
minimum pulse for ESC startup. -/
def motor_init (min_us mid_us max_us : Nat) : Motor :=
  motor_set_pulse_us
    { min_us := min_us, mid_us := mid_us, max_us := max_us,
      last_throttle := 0, armed := false, hw_level := 0 }
    min_us

/-! Embedding of `motor_controller_t` and `src/hardware/motor_controller.c`.
The field `stop_all_count` is ghost instrumentation: it counts invocations of
`motor_controller_stop_all` and is touched by no other operation, so that
"stop_all fires exactly once" becomes a statement about the state. -/

structure MotorController where
  motor_left_front : Motor
  motor_left_back : Motor
  motor_right_front : Motor
  motor_right_back : Motor
  weapon : Motor
  left_speed : Int
  right_speed : Int
  weapon_speed : Int
  weapon_armed : Bool
  last_command_time_ms : Nat
  failsafe_triggered : Bool
  stop_all_count : Nat
  deriving Repr, DecidableEq

/-- Embeds the static helper `apply_deadband`. -/
def apply_deadband (value : Int) : Int :=
  if |value| < MOTOR_DEADBAND then 0 else value

/-- Embeds the static helper `clamp`. -/
def clamp (value min max : Int) : Int :=
  if value < min then min else if value > max then max else value

/-- Embeds the static helper `update_command_time`; `now` is the clock reading
the source takes inside the function. -/
def update_command_time (mc : MotorController) (now : Nat) : MotorController :=
  { mc with last_command_time_ms := now, failsafe_triggered := false }

/-- Embeds `motor_controller_arm_weapon`. -/
def motor_controller_arm_weapon (mc : MotorController) : MotorController :=
  { mc with weapon_armed := true, weapon := motor_arm mc.weapon }

/-- Embeds `motor_controller_disarm_weapon`: clear the armed flags and
immediately command the weapon motor to 0. -/
def motor_controller_disarm_weapon (mc : MotorController) : MotorController :=
  let mc := { mc with weapon_armed := false, weapon := motor_disarm mc.weapon }
  { mc with weapon := motor_set_speed mc.weapon 0 MOTOR_BIDIRECTIONAL, weapon_speed := 0 }

/-- Embeds `motor_controller_init`: initialise the four drive motors and the
weapon motor, zero the state, stop the drive motors, then auto-arm the weapon. -/
def motor_controller_init (now : Nat) : MotorController :=
  let mc : MotorController :=
    { motor_left_front := motor_init DRIVE_MIN_US DRIVE_MID_US DRIVE_MAX_US,
      motor_left_back := motor_init DRIVE_MIN_US DRIVE_MID_US DRIVE_MAX_US,
      motor_right_front := motor_init DRIVE_MIN_US DRIVE_MID_US DRIVE_MAX_US,
      motor_right_back := motor_init DRIVE_MIN_US DRIVE_MID_US DRIVE_MAX_US,
      weapon := motor_init WEAPON_MIN_US WEAPON_MID_US WEAPON_MAX_US,
      left_speed := 0, right_speed := 0, weapon_speed := 0,
      weapon_armed := false,
      last_command_time_ms := now, failsafe_triggered := false,
      stop_all_count := 0 }
  let mc := { mc with
    motor_left_front := motor_stop mc.motor_left_front MOTOR_BIDIRECTIONAL,
    motor_left_back := motor_stop mc.motor_left_back MOTOR_BIDIRECTIONAL,
    motor_right_front := motor_stop mc.motor_right_front MOTOR_BIDIRECTIONAL,
    motor_right_back := motor_stop mc.motor_right_back MOTOR_BIDIRECTIONAL,
    left_speed := 0, right_speed := 0 }
  motor_controller_arm_weapon mc

/-- Embeds `motor_controller_set_left`: deadband, clamp, drive both left motors,
store the speed, update the command timestamp. -/
def motor_controller_set_left (mc : MotorController) (speed : Int) (now : Nat) :
    MotorController :=
  let speed := apply_deadband speed
  let speed := clamp speed (-MOTOR_MAX_SPEED) MOTOR_MAX_SPEED
  let mc := { mc with
    motor_left_front := motor_set_speed mc.motor_left_front speed MOTOR_BIDIRECTIONAL,
    motor_left_back := motor_set_speed mc.motor_left_back speed MOTOR_BIDIRECTIONAL,
    left_speed := speed }
  update_command_time mc now

/-- Embeds `motor_controller_set_right`. -/
def motor_controller_set_right (mc : MotorController) (speed : Int) (now : Nat) :
    MotorController :=
  let speed := apply_deadband speed
  let speed := clamp speed (-MOTOR_MAX_SPEED) MOTOR_MAX_SPEED
  let mc := { mc with
    motor_right_front := motor_set_speed mc.motor_right_front speed MOTOR_BIDIRECTIONAL,
    motor_right_back := motor_set_speed mc.motor_right_back speed MOTOR_BIDIRECTIONAL,
    right_speed := speed }
  update_command_time mc now

/-- Embeds `motor_controller_tank_drive`. The source reads the clock once inside
each of the two setter calls; the two readings are passed as one `now`. -/
def motor_controller_tank_drive (mc : MotorController) (left right : Int) (now : Nat) :
    MotorController :=
  motor_controller_set_right (motor_controller_set_left mc left now) right now

/-- Embeds `motor_controller_arcade_drive`: deadband the raw inputs, mix, rescale
with C truncating division when the larger magnitude exceeds the cap, then tank
drive. -/
def motor_controller_arcade_drive (mc : MotorController) (throttle turn : Int) (now : Nat) :
    MotorController :=
  let throttle := apply_deadband throttle
  let turn := apply_deadband turn
  let left := throttle + turn
  let right := throttle - turn
  let max_val := if |right| > |left| then |right| else |left|
  let left := if max_val > MOTOR_MAX_SPEED then Int.tdiv (left * MOTOR_MAX_SPEED) max_val else left
  let right := if max_val > MOTOR_MAX_SPEED then Int.tdiv (right * MOTOR_MAX_SPEED) max_val else right
  motor_controller_tank_drive mc left right now

/-- Embeds `motor_controller_set_weapon`: clamp to [0, MOTOR_MAX_SPEED], drive
the weapon motor, store the speed, update the command timestamp. There is no
arming gate in this function. -/
def motor_controller_set_weapon (mc : MotorController) (speed : Int) (now : Nat) :
    MotorController :=
  let speed := clamp speed 0 MOTOR_MAX_SPEED
  let mc := { mc with
    weapon := motor_set_speed mc.weapon speed MOTOR_BIDIRECTIONAL,
    weapon_speed := speed }
  update_command_time mc now

/-- Embeds `motor_controller_is_weapon_armed`. -/
def motor_controller_is_weapon_armed (mc : MotorController) : Bool :=
  mc.weapon_armed

/-- Embeds `motor_controller_stop_all`: stop the four drive motors, zero the
drive speeds, disarm and stop the weapon. The ghost counter records the call. -/
def motor_controller_stop_all (mc : MotorController) : MotorController :=
  let mc := { mc with
    motor_left_front := motor_stop mc.motor_left_front MOTOR_BIDIRECTIONAL,
    motor_left_back := motor_stop mc.motor_left_back MOTOR_BIDIRECTIONAL,
    motor_right_front := motor_stop mc.motor_right_front MOTOR_BIDIRECTIONAL,
    motor_right_back := motor_stop mc.motor_right_back MOTOR_BIDIRECTIONAL,
    left_speed := 0, right_speed := 0,
    stop_all_count := mc.stop_all_count + 1 }
  motor_controller_disarm_weapon mc

/-- Embeds `motor_controller_check_failsafe`; returns the updated state and the
C return value (true while the command stream is stale). `stop_all` runs only
when the staleness is newly detected. -/
def motor_controller_check_failsafe (mc : MotorController) (now : Nat) :
    MotorController × Bool :=
  if !FAILSAFE_ENABLED then (mc, false)
  else
    let elapsed := now - mc.last_command_time_ms
    if elapsed > FAILSAFE_TIMEOUT_MS then
      if !mc.failsafe_triggered then
        ({ motor_controller_stop_all mc with failsafe_triggered := true }, true)
      else (mc, true)
    else (mc, false)

/-! Reachable states of the motor controller: any sequence of public operations
applied after `motor_controller_init`. -/

inductive MCOp where
  | setLeft (speed : Int) (now : Nat)
  | setRight (speed : Int) (now : Nat)
  | tankDrive (left right : Int) (now : Nat)
  | arcadeDrive (throttle turn : Int) (now : Nat)
  | setWeapon (speed : Int) (now : Nat)
  | armWeapon
  | disarmWeapon
  | stopAll
  | checkFailsafe (now : Nat)
  deriving Repr, DecidableEq

def applyOp (mc : MotorController) : MCOp → MotorController
  | .setLeft speed now => motor_controller_set_left mc speed now
  | .setRight speed now => motor_controller_set_right mc speed now
  | .tankDrive left right now => motor_controller_tank_drive mc left right now
  | .arcadeDrive throttle turn now => motor_controller_arcade_drive mc throttle turn now
  | .setWeapon speed now => motor_controller_set_weapon mc speed now
  | .armWeapon => motor_controller_arm_weapon mc
  | .disarmWeapon => motor_controller_disarm_weapon mc
  | .stopAll => motor_controller_stop_all mc
  | .checkFailsafe now => (motor_controller_check_failsafe mc now).1

def runOps (mc : MotorController) : List MCOp → MotorController
  | [] => mc
  | op :: ops => runOps (applyOp mc op) ops

/-- A state is reachable when some sequence of public operations produces it
from `motor_controller_init`. -/
def Reachable (mc : MotorController) : Prop :=
  ∃ now ops, mc = runOps (motor_controller_init now) ops

/-! Embedding of the control-mapping part of `src/my_platform.c`: the fields of
`uni_gamepad_t` that `process_controller_input` reads (with the two shoulder
buttons and the system button already extracted from their bitmasks), the
module-level globals, `map_range`, `check_arming_countdown` and
`process_controller_input`. The `g_motors_initialized` guard is modelled as
already satisfied, and `g_prev_buttons` (stored but never read for control
decisions) is omitted. -/

structure uni_gamepad where
  axis_y : Int
  axis_ry : Int
  throttle : Int
  button_shoulder_l : Bool
  button_shoulder_r : Bool
  misc_button_system : Bool
  deriving Repr, DecidableEq

/-- Module-level mutable state of `my_platform.c`: the previous system-button
state used for edge detection, the bumper-hold bookkeeping, and the motor
controller instance `g_motors`. -/
structure PlatformState where
  prev_misc_system : Bool
  bumpers_held : Bool
  arm_hold_start : Nat
  arm_hold_active : Bool
  last_countdown : Int
  mc : MotorController
  deriving Repr, DecidableEq

/-- Embeds the static helper `map_range` with C truncating division. -/
def map_range (value in_min in_max out_min out_max : Int) : Int :=
  Int.tdiv ((value - in_min) * (out_max - out_min)) (in_max - in_min) + out_min

/-- Embeds `check_arming_countdown`, the body run on each 100 ms timer tick and
on each input pass: while the bumpers are held, the hold is active and the
weapon is not armed, arm once the hold time is reached, otherwise update the
countdown bookkeeping that drives the printed countdown. -/
def check_arming_countdown (p : PlatformState) (now : Nat) : PlatformState :=
  if p.bumpers_held && p.arm_hold_active && !(motor_controller_is_weapon_armed p.mc) then
    let held_time := now - p.arm_hold_start
    if held_time ≥ ARM_HOLD_TIME_MS then
      { p with mc := motor_controller_arm_weapon p.mc, last_countdown := -1 }
    else
      let seconds_left : Int := ((ARM_HOLD_TIME_MS - held_time + 999) / 1000 : Nat)
      if seconds_left ≠ p.last_countdown ∧ seconds_left ≥ 0 then
        { p with last_countdown := seconds_left }
      else p
  else p

/-- Embeds `process_controller_input`: tank drive from the stick Y axes, weapon
speed from the right trigger (unconditionally forwarded), bumper edge handling
for the arm/disarm sequence, and the system-button emergency stop. -/
def process_controller_input (p : PlatformState) (gp : uni_gamepad) (now : Nat) :
    PlatformState :=
  let left_speed := map_range gp.axis_y STICK_MIN STICK_MAX (-100) 100 * THROTTLE_INVERT
  let right_speed := map_range gp.axis_ry STICK_MIN STICK_MAX (-100) 100 * THROTTLE_INVERT
  let mc := motor_controller_tank_drive p.mc left_speed right_speed now
  let weapon_speed := map_range gp.throttle 0 TRIGGER_MAX 0 100
  let mc := motor_controller_set_weapon mc weapon_speed now
  let lb_pressed := gp.button_shoulder_l
  let rb_pressed := gp.button_shoulder_r
  let both_held := lb_pressed && rb_pressed
  let p :=
    if both_held && !p.bumpers_held then
      if motor_controller_is_weapon_armed mc then
        { p with bumpers_held := true, mc := motor_controller_disarm_weapon mc }
      else
        { p with bumpers_held := true, mc := mc,
                 arm_hold_start := now, arm_hold_active := true,
                 last_countdown := (ARM_HOLD_TIME_MS : Int) / 1000 + 1 }
    else if !both_held && p.bumpers_held then
      { p with bumpers_held := false, mc := mc,
               arm_hold_active := false, last_countdown := -1 }
    else
      { p with mc := mc }
  let xbox_pressed := gp.misc_button_system
  let xbox_was_pressed := p.prev_misc_system
  let p := if xbox_pressed && !xbox_was_pressed then
             { p with mc := motor_controller_stop_all p.mc }
           else p
  { p with prev_misc_system := gp.misc_button_system }


/-! Concrete controller frames and platform states used to exercise the
arming sequence: full right trigger with both bumpers pressed or released. -/

def gp_press_trigger_high : uni_gamepad :=
  { axis_y := 0, axis_ry := 0, throttle := 1023,
    button_shoulder_l := true, button_shoulder_r := true, misc_button_system := false }

def gp_release_trigger_high : uni_gamepad :=
  { axis_y := 0, axis_ry := 0, throttle := 1023,
    button_shoulder_l := false, button_shoulder_r := false, misc_button_system := false }

/-- Platform state at startup: globals cleared, motor controller initialised
(at clock 0). -/
def platform_boot : PlatformState :=
  { prev_misc_system := false, bumpers_held := false, arm_hold_start := 0,
    arm_hold_active := false, last_countdown := -1, mc := motor_controller_init 0 }

/-- Platform state with the weapon disarmed and no hold in progress. -/
def platform_disarmed : PlatformState :=
  { prev_misc_system := false, bumpers_held := false, arm_hold_start := 0,
    arm_hold_active := false, last_countdown := -1,
    mc := runOps (motor_controller_init 0) [MCOp.disarmWeapon] }

/-- Trace reaching a hold countdown while the trigger commands full weapon
speed: tap-to-disarm at 100 ms, release at 200 ms, press again at 300 ms. -/
def arming_cancel_press : PlatformState :=
  process_controller_input
    (process_controller_input
      (process_controller_input platform_boot gp_press_trigger_high 100)
      gp_release_trigger_high 200)
    gp_press_trigger_high 300

/-- Release of the bumpers at 5299 ms, one millisecond short of the 5000 ms
hold that started at 300 ms. -/
def arming_cancel_release : PlatformState :=
  process_controller_input arming_cancel_press gp_release_trigger_high 5299

/-- Drive-speed range invariant used for C8. -/
def DriveSpeedInv (mc : MotorController) : Prop :=
  -100 ≤ mc.left_speed ∧ mc.left_speed ≤ 100 ∧ -100 ≤ mc.right_speed ∧ mc.right_speed ≤ 100

/-- Weapon-speed range invariant used for C2. -/
def WeaponSpeedInv (mc : MotorController) : Prop :=
  0 ≤ mc.weapon_speed ∧ mc.weapon_speed ≤ 100

/-! Projection lemmas for the motor-controller operations, all definitional. -/

@[simp] lemma set_left_left_speed (mc : MotorController) (s : Int) (n : Nat) :
    (motor_controller_set_left mc s n).left_speed
      = clamp (apply_deadband s) (-MOTOR_MAX_SPEED) MOTOR_MAX_SPEED := rfl

@[simp] lemma set_left_right_speed (mc : MotorController) (s : Int) (n : Nat) :
    (motor_controller_set_left mc s n).right_speed = mc.right_speed := rfl

@[simp] lemma set_left_weapon_speed (mc : MotorController) (s : Int) (n : Nat) :
    (motor_controller_set_left mc s n).weapon_speed = mc.weapon_speed := rfl

@[simp] lemma set_left_weapon_armed (mc : MotorController) (s : Int) (n : Nat) :
    (motor_controller_set_left mc s n).weapon_armed = mc.weapon_armed := rfl

@[simp] lemma set_left_last_command (mc : MotorController) (s : Int) (n : Nat) :
    (motor_controller_set_left mc s n).last_command_time_ms = n := rfl

@[simp] lemma set_left_triggered (mc : MotorController) (s : Int) (n : Nat) :
    (motor_controller_set_left mc s n).failsafe_triggered = false := rfl

@[simp] lemma set_left_count (mc : MotorController) (s : Int) (n : Nat) :
    (motor_controller_set_left mc s n).stop_all_count = mc.stop_all_count := rfl

@[simp] lemma set_right_left_speed (mc : MotorController) (s : Int) (n : Nat) :
    (motor_controller_set_right mc s n).left_speed = mc.left_speed := rfl

@[simp] lemma set_right_right_speed (mc : MotorController) (s : Int) (n : Nat) :
    (motor_controller_set_right mc s n).right_speed
      = clamp (apply_deadband s) (-MOTOR_MAX_SPEED) MOTOR_MAX_SPEED := rfl

@[simp] lemma set_right_weapon_speed (mc : MotorController) (s : Int) (n : Nat) :
    (motor_controller_set_right mc s n).weapon_speed = mc.weapon_speed := rfl

@[simp] lemma set_right_weapon_armed (mc : MotorController) (s : Int) (n : Nat) :
    (motor_controller_set_right mc s n).weapon_armed = mc.weapon_armed := rfl

@[simp] lemma set_right_last_command (mc : MotorController) (s : Int) (n : Nat) :
    (motor_controller_set_right mc s n).last_command_time_ms = n := rfl

@[simp] lemma set_right_triggered (mc : MotorController) (s : Int) (n : Nat) :
    (motor_controller_set_right mc s n).failsafe_triggered = false := rfl

@[simp] lemma set_right_count (mc : MotorController) (s : Int) (n : Nat) :
    (motor_controller_set_right mc s n).stop_all_count = mc.stop_all_count := rfl

@[simp] lemma tank_drive_weapon_armed (mc : MotorController) (l r : Int) (n : Nat) :
    (motor_controller_tank_drive mc l r n).weapon_armed = mc.weapon_armed := rfl

@[simp] lemma tank_drive_weapon_speed (mc : MotorController) (l r : Int) (n : Nat) :
    (motor_controller_tank_drive mc l r n).weapon_speed = mc.weapon_speed := rfl

@[simp] lemma set_weapon_weapon_speed (mc : MotorController) (s : Int) (n : Nat) :
    (motor_controller_set_weapon mc s n).weapon_speed = clamp s 0 MOTOR_MAX_SPEED := rfl

@[simp] lemma set_weapon_weapon_armed (mc : MotorController) (s : Int) (n : Nat) :
    (motor_controller_set_weapon mc s n).weapon_armed = mc.weapon_armed := rfl

@[simp] lemma set_weapon_left_speed (mc : MotorController) (s : Int) (n : Nat) :
    (motor_controller_set_weapon mc s n).left_speed = mc.left_speed := rfl

@[simp] lemma set_weapon_right_speed (mc : MotorController) (s : Int) (n : Nat) :
    (motor_controller_set_weapon mc s n).right_speed = mc.right_speed := rfl

@[simp] lemma set_weapon_last_command (mc : MotorController) (s : Int) (n : Nat) :
    (motor_controller_set_weapon mc s n).last_command_time_ms = n := rfl

@[simp] lemma set_weapon_triggered (mc : MotorController) (s : Int) (n : Nat) :
    (motor_controller_set_weapon mc s n).failsafe_triggered = false := rfl

@[simp] lemma set_weapon_count (mc : MotorController) (s : Int) (n : Nat) :
    (motor_controller_set_weapon mc s n).stop_all_count = mc.stop_all_count := rfl

@[simp] lemma arm_weapon_weapon_armed (mc : MotorController) :
    (motor_controller_arm_weapon mc).weapon_armed = true := rfl

@[simp] lemma arm_weapon_weapon_speed (mc : MotorController) :
    (motor_controller_arm_weapon mc).weapon_speed = mc.weapon_speed := rfl

@[simp] lemma arm_weapon_left_speed (mc : MotorController) :
    (motor_controller_arm_weapon mc).left_speed = mc.left_speed := rfl

@[simp] lemma arm_weapon_right_speed (mc : MotorController) :
    (motor_controller_arm_weapon mc).right_speed = mc.right_speed := rfl

@[simp] lemma arm_weapon_last_command (mc : MotorController) :
    (motor_controller_arm_weapon mc).last_command_time_ms = mc.last_command_time_ms := rfl

@[simp] lemma arm_weapon_triggered (mc : MotorController) :
    (motor_controller_arm_weapon mc).failsafe_triggered = mc.failsafe_triggered := rfl

@[simp] lemma arm_weapon_count (mc : MotorController) :
    (motor_controller_arm_weapon mc).stop_all_count = mc.stop_all_count := rfl

@[simp] lemma disarm_weapon_weapon_armed (mc : MotorController) :
    (motor_controller_disarm_weapon mc).weapon_armed = false := rfl

@[simp] lemma disarm_weapon_weapon_speed (mc : MotorController) :
    (motor_controller_disarm_weapon mc).weapon_speed = 0 := rfl

@[simp] lemma disarm_weapon_left_speed (mc : MotorController) :
    (motor_controller_disarm_weapon mc).left_speed = mc.left_speed := rfl

@[simp] lemma disarm_weapon_right_speed (mc : MotorController) :
    (motor_controller_disarm_weapon mc).right_speed = mc.right_speed := rfl

@[simp] lemma disarm_weapon_last_command (mc : MotorController) :
    (motor_controller_disarm_weapon mc).last_command_time_ms = mc.last_command_time_ms := rfl

@[simp] lemma disarm_weapon_triggered (mc : MotorController) :
    (motor_controller_disarm_weapon mc).failsafe_triggered = mc.failsafe_triggered := rfl

@[simp] lemma disarm_weapon_count (mc : MotorController) :
    (motor_controller_disarm_weapon mc).stop_all_count = mc.stop_all_count := rfl

@[simp] lemma stop_all_left_speed (mc : MotorController) :
    (motor_controller_stop_all mc).left_speed = 0 := rfl

@[simp] lemma stop_all_right_speed (mc : MotorController) :
    (motor_controller_stop_all mc).right_speed = 0 := rfl

@[simp] lemma stop_all_weapon_speed (mc : MotorController) :
    (motor_controller_stop_all mc).weapon_speed = 0 := rfl

@[simp] lemma stop_all_weapon_armed (mc : MotorController) :
    (motor_controller_stop_all mc).weapon_armed = false := rfl

@[simp] lemma stop_all_last_command (mc : MotorController) :
    (motor_controller_stop_all mc).last_command_time_ms = mc.last_command_time_ms := rfl

@[simp] lemma stop_all_triggered (mc : MotorController) :
    (motor_controller_stop_all mc).failsafe_triggered = mc.failsafe_triggered := rfl

@[simp] lemma stop_all_count_succ (mc : MotorController) :
    (motor_controller_stop_all mc).stop_all_count = mc.stop_all_count + 1 := rfl

/-! Characterisation of `motor_controller_check_failsafe` by staleness case. -/

lemma check_failsafe_fires (mc : MotorController) (now : Nat)
    (h : FAILSAFE_TIMEOUT_MS < now - mc.last_command_time_ms)
    (ht : mc.failsafe_triggered = false) :
    motor_controller_check_failsafe mc now
      = ({ motor_controller_stop_all mc with failsafe_triggered := true }, true) := by
  simp [motor_controller_check_failsafe, FAILSAFE_ENABLED, h, ht]

lemma check_failsafe_already_triggered (mc : MotorController) (now : Nat)
    (h : FAILSAFE_TIMEOUT_MS < now - mc.last_command_time_ms)
    (ht : mc.failsafe_triggered = true) :
    motor_controller_check_failsafe mc now = (mc, true) := by
  simp [motor_controller_check_failsafe, FAILSAFE_ENABLED, h, ht]

lemma check_failsafe_fresh (mc : MotorController) (now : Nat)
    (h : now - mc.last_command_time_ms ≤ FAILSAFE_TIMEOUT_MS) :
    motor_controller_check_failsafe mc now = (mc, false) := by
  simp [motor_controller_check_failsafe, FAILSAFE_ENABLED, Nat.not_lt.mpr h]

/-- Clamping keeps a value inside a non-empty range. -/
lemma clamp_bounds (v lo hi : Int) (h : lo ≤ hi) :
    lo ≤ clamp v lo hi ∧ clamp v lo hi ≤ hi := by
  unfold clamp
  split_ifs <;> omega

/-- C1 (counterexample): in the reachable state obtained by disarming after
startup, `motor_controller_set_weapon` with speed 80 stores weapon speed 80,
not the 0 the gating claim requires. -/
theorem C1_disarmed_set_weapon_not_gated :
    (runOps (motor_controller_init 0) [MCOp.disarmWeapon]).weapon_armed = false ∧
    (motor_controller_set_weapon (runOps (motor_controller_init 0) [MCOp.disarmWeapon])
        80 0).weapon_speed = 80 ∧
    (motor_controller_set_weapon (runOps (motor_controller_init 0) [MCOp.disarmWeapon])
        80 0).weapon_speed ≠ 0 := by
  refine ⟨rfl, by decide, by decide⟩

/-- C1 (amended): `motor_controller_set_weapon` clamps the speed to
[0, MOTOR_MAX_SPEED] and stores the clamped value unconditionally — there is no
disarmed gate; in particular speed 80 is stored as 80 both in an arbitrary
state and after `motor_controller_arm_weapon`. -/
theorem C1_set_weapon_clamps_ungated (s : MotorController) (speed : Int) (now : Nat) :
    (motor_controller_set_weapon s speed now).weapon_speed = clamp speed 0 MOTOR_MAX_SPEED ∧
    (motor_controller_set_weapon s 80 now).weapon_speed = 80 ∧
    (motor_controller_set_weapon (motor_controller_arm_weapon s) 80 now).weapon_speed = 80 :=
  ⟨rfl, by simp [clamp, MOTOR_MAX_SPEED], by simp [clamp, MOTOR_MAX_SPEED]⟩

/-- C6: `motor_set_pulse_us` always writes a level inside the absolute safety
bounds [ESC_ABS_MIN_US, ESC_ABS_MAX_US] = [900, 2100] to the hardware sink, and
writes the input unchanged when it is already inside those bounds; the function
is total, so every (16-bit) input is absorbed by clamping rather than
rejected. -/
theorem C6_set_pulse_us_clamped (m : Motor) (us : Nat) (hus : us ≤ 65535) :
    (ESC_ABS_MIN_US ≤ (motor_set_pulse_us m us).hw_level ∧
      (motor_set_pulse_us m us).hw_level ≤ ESC_ABS_MAX_US) ∧
    (ESC_ABS_MIN_US ≤ us → us ≤ ESC_ABS_MAX_US → (motor_set_pulse_us m us).hw_level = us) := by
  simp only [motor_set_pulse_us, MOTOR_INVERT_SIGNAL, ESC_ABS_MIN_US, ESC_ABS_MAX_US, PWM_WRAP,
    Bool.false_eq_true, if_false]
  constructor
  · split_ifs <;> omega
  · intro h1 h2
    split_ifs <;> omega

/-- C6 (witness): the theorem applied to the drive motor and the in-range pulse
1500. -/
theorem C6_set_pulse_us_clamped_witness :
    (1500 ≤ 65535) ∧
    ((ESC_ABS_MIN_US ≤ (motor_set_pulse_us (motor_init DRIVE_MIN_US DRIVE_MID_US DRIVE_MAX_US)
          1500).hw_level ∧
      (motor_set_pulse_us (motor_init DRIVE_MIN_US DRIVE_MID_US DRIVE_MAX_US)
          1500).hw_level ≤ ESC_ABS_MAX_US) ∧
     (ESC_ABS_MIN_US ≤ 1500 → 1500 ≤ ESC_ABS_MAX_US →
      (motor_set_pulse_us (motor_init DRIVE_MIN_US DRIVE_MID_US DRIVE_MAX_US)
          1500).hw_level = 1500)) :=
  ⟨by decide, C6_set_pulse_us_clamped (motor_init DRIVE_MIN_US DRIVE_MID_US DRIVE_MAX_US)
      1500 (by decide)⟩

/-- C9: immediately after `motor_controller_init` the weapon is auto-armed —
both the controller flag and the weapon actuator armed flag are set — while the
stored drive speeds are 0. -/
theorem C9_init_auto_arms_weapon (now : Nat) :
    (motor_controller_init now).weapon_armed = true ∧
    (motor_controller_init now).weapon.armed = true ∧
    (motor_controller_init now).left_speed = 0 ∧
    (motor_controller_init now).right_speed = 0 :=
  ⟨rfl, rfl, rfl, rfl⟩

/-- C10: `motor_controller_stop_all` and the `motor_controller_disarm_weapon`
it calls leave `last_command_time_ms` and `failsafe_triggered` unchanged, and
so do `arm_weapon` and `check_failsafe` (for the timestamp); only `set_left`,
`set_right` and `set_weapon` move the command timestamp (to the current clock
reading). -/
theorem C10_stop_all_preserves_failsafe_window (s : MotorController) (v : Int) (now : Nat) :
    (motor_controller_stop_all s).last_command_time_ms = s.last_command_time_ms ∧
    (motor_controller_stop_all s).failsafe_triggered = s.failsafe_triggered ∧
    (motor_controller_disarm_weapon s).last_command_time_ms = s.last_command_time_ms ∧
    (motor_controller_disarm_weapon s).failsafe_triggered = s.failsafe_triggered ∧
    (motor_controller_arm_weapon s).last_command_time_ms = s.last_command_time_ms ∧
    (motor_controller_arm_weapon s).failsafe_triggered = s.failsafe_triggered ∧
    ((motor_controller_check_failsafe s now).1).last_command_time_ms = s.last_command_time_ms ∧
    (motor_controller_set_left s v now).last_command_time_ms = now ∧
    (motor_controller_set_right s v now).last_command_time_ms = now ∧
    (motor_controller_set_weapon s v now).last_command_time_ms = now := by
  refine ⟨rfl, rfl, rfl, rfl, rfl, rfl, ?_, rfl, rfl, rfl⟩
  simp only [motor_controller_check_failsafe]
  split_ifs <;> rfl

/-- C5: arcade mixing bound plus the concrete rescaling example. The stored
drive speeds after `motor_controller_arcade_drive` always have magnitude at
most MOTOR_MAX_SPEED, and `arcade_drive(90, 40)` stores left = 100 and
right = 38 (5000 * 100 / 130 truncated toward zero). -/
theorem C5_arcade_drive_mixing (mc : MotorController) (throttle turn : Int) (now : Nat)
    (h1 : -100 ≤ throttle) (h2 : throttle ≤ 100) (h3 : -100 ≤ turn) (h4 : turn ≤ 100) :
    (|(motor_controller_arcade_drive mc throttle turn now).left_speed| ≤ MOTOR_MAX_SPEED ∧
     |(motor_controller_arcade_drive mc throttle turn now).right_speed| ≤ MOTOR_MAX_SPEED) ∧
    ((motor_controller_arcade_drive mc 90 40 now).left_speed = 100 ∧
     (motor_controller_arcade_drive mc 90 40 now).right_speed = 38) := by
  constructor
  · constructor <;>
    · simp only [motor_controller_arcade_drive, motor_controller_tank_drive,
        set_right_left_speed, set_left_left_speed, set_right_right_speed]
      rw [abs_le]
      exact clamp_bounds _ _ _ (by decide)
  · constructor <;>
    · simp only [motor_controller_arcade_drive, motor_controller_tank_drive,
        set_right_left_speed, set_left_left_speed, set_right_right_speed]
      norm_num [apply_deadband, clamp, MOTOR_DEADBAND, MOTOR_MAX_SPEED, Int.tdiv]

/-- C5 (witness): the mixing theorem applied at throttle 90, turn 40 from the
startup state. -/
theorem C5_arcade_drive_mixing_witness :
    ((-100 : Int) ≤ 90 ∧ (90 : Int) ≤ 100 ∧ (-100 : Int) ≤ 40 ∧ (40 : Int) ≤ 100) ∧
    ((|(motor_controller_arcade_drive (motor_controller_init 0) 90 40 1).left_speed|
        ≤ MOTOR_MAX_SPEED ∧
      |(motor_controller_arcade_drive (motor_controller_init 0) 90 40 1).right_speed|
        ≤ MOTOR_MAX_SPEED) ∧
     ((motor_controller_arcade_drive (motor_controller_init 0) 90 40 1).left_speed = 100 ∧
      (motor_controller_arcade_drive (motor_controller_init 0) 90 40 1).right_speed = 38)) :=
  ⟨⟨by decide, by decide, by decide, by decide⟩,
   C5_arcade_drive_mixing (motor_controller_init 0) 90 40 1
     (by decide) (by decide) (by decide) (by decide)⟩

lemma clamp_deadband_bounds (v : Int) :
    -100 ≤ clamp (apply_deadband v) (-MOTOR_MAX_SPEED) MOTOR_MAX_SPEED ∧
    clamp (apply_deadband v) (-MOTOR_MAX_SPEED) MOTOR_MAX_SPEED ≤ 100 := by
  have h := clamp_bounds (apply_deadband v) (-MOTOR_MAX_SPEED) MOTOR_MAX_SPEED (by decide)
  simpa [MOTOR_MAX_SPEED] using h

lemma driveSpeedInv_applyOp (mc : MotorController) (op : MCOp) (h : DriveSpeedInv mc) :
    DriveSpeedInv (applyOp mc op) := by
  obtain ⟨hl1, hl2, hr1, hr2⟩ := h
  cases op with
  | setLeft s n =>
    exact ⟨(clamp_deadband_bounds s).1, (clamp_deadband_bounds s).2, hr1, hr2⟩
  | setRight s n =>
    exact ⟨hl1, hl2, (clamp_deadband_bounds s).1, (clamp_deadband_bounds s).2⟩
  | tankDrive l r n =>
    exact ⟨(clamp_deadband_bounds l).1, (clamp_deadband_bounds l).2,
      (clamp_deadband_bounds r).1, (clamp_deadband_bounds r).2⟩
  | arcadeDrive t u n =>
    refine ⟨(clamp_deadband_bounds _).1, (clamp_deadband_bounds _).2,
      (clamp_deadband_bounds _).1, (clamp_deadband_bounds _).2⟩
  | setWeapon s n =>
    exact ⟨hl1, hl2, hr1, hr2⟩
  | armWeapon =>
    exact ⟨hl1, hl2, hr1, hr2⟩
  | disarmWeapon =>
    exact ⟨hl1, hl2, hr1, hr2⟩
  | stopAll =>
    exact ⟨by norm_num [applyOp], by norm_num [applyOp], by norm_num [applyOp],
      by norm_num [applyOp]⟩
  | checkFailsafe n =>
    simp only [DriveSpeedInv, applyOp, motor_controller_check_failsafe]
    split_ifs <;>
      simp_all [stop_all_left_speed, stop_all_right_speed]

lemma driveSpeedInv_runOps (mc : MotorController) (ops : List MCOp) (h : DriveSpeedInv mc) :
    DriveSpeedInv (runOps mc ops) := by
  induction ops generalizing mc with
  | nil => exact h
  | cons op ops ih => exact ih _ (driveSpeedInv_applyOp mc op h)

lemma driveSpeedInv_init (now : Nat) : DriveSpeedInv (motor_controller_init now) := by
  refine ⟨?_, ?_, ?_, ?_⟩ <;> simp [DriveSpeedInv, motor_controller_init]

/-- C8: in every reachable state of the motor controller — after any sequence
of public mutations with arbitrary integer arguments — the stored drive speeds
lie within [-100, 100], and MOTOR_MAX_SPEED is 100. -/
theorem C8_drive_speeds_bounded (s : MotorController) (h : Reachable s) :
    (-100 ≤ s.left_speed ∧ s.left_speed ≤ 100 ∧
     -100 ≤ s.right_speed ∧ s.right_speed ≤ 100) ∧
    MOTOR_MAX_SPEED = 100 := by
  obtain ⟨now, ops, rfl⟩ := h
  exact ⟨driveSpeedInv_runOps _ ops (driveSpeedInv_init now), rfl⟩

/-- C8 (witness): the bound theorem applied to the reachable state obtained by
commanding left speed 250 after startup. -/
theorem C8_drive_speeds_bounded_witness :
    Reachable (runOps (motor_controller_init 0) [MCOp.setLeft 250 5]) ∧
    ((-100 ≤ (runOps (motor_controller_init 0) [MCOp.setLeft 250 5]).left_speed ∧
      (runOps (motor_controller_init 0) [MCOp.setLeft 250 5]).left_speed ≤ 100 ∧
      -100 ≤ (runOps (motor_controller_init 0) [MCOp.setLeft 250 5]).right_speed ∧
      (runOps (motor_controller_init 0) [MCOp.setLeft 250 5]).right_speed ≤ 100) ∧
     MOTOR_MAX_SPEED = 100) :=
  ⟨⟨0, [MCOp.setLeft 250 5], rfl⟩,
   C8_drive_speeds_bounded _ ⟨0, [MCOp.setLeft 250 5], rfl⟩⟩

lemma weaponSpeedInv_applyOp (mc : MotorController) (op : MCOp) (h : WeaponSpeedInv mc) :
    WeaponSpeedInv (applyOp mc op) := by
  obtain ⟨h1, h2⟩ := h
  have hcs : ∀ s : Int, 0 ≤ clamp s 0 MOTOR_MAX_SPEED ∧ clamp s 0 MOTOR_MAX_SPEED ≤ 100 := by
    intro s
    have h := clamp_bounds s 0 MOTOR_MAX_SPEED (by decide)
    simpa [MOTOR_MAX_SPEED] using h
  cases op with
  | setLeft s n => exact ⟨h1, h2⟩
  | setRight s n => exact ⟨h1, h2⟩
  | tankDrive l r n => exact ⟨h1, h2⟩
  | arcadeDrive t u n => exact ⟨h1, h2⟩
  | setWeapon s n => exact ⟨(hcs s).1, (hcs s).2⟩
  | armWeapon => exact ⟨h1, h2⟩
  | disarmWeapon => exact ⟨by norm_num [applyOp], by norm_num [applyOp]⟩
  | stopAll => exact ⟨by norm_num [applyOp], by norm_num [applyOp]⟩
  | checkFailsafe n =>
    simp only [WeaponSpeedInv, applyOp, motor_controller_check_failsafe]
    split_ifs <;> simp_all [stop_all_weapon_speed]

lemma weaponSpeedInv_runOps (mc : MotorController) (ops : List MCOp) (h : WeaponSpeedInv mc) :
    WeaponSpeedInv (runOps mc ops) := by
  induction ops generalizing mc with
  | nil => exact h
  | cons op ops ih => exact ih _ (weaponSpeedInv_applyOp mc op h)

/-- C2 (counterexample): the claimed invariant is violated in a reachable state.
After startup, disarming and then commanding weapon speed 80 yields a reachable
state with weapon_speed = 80 > 0 while weapon_armed = false, because
`motor_controller_set_weapon` has no arming gate. -/
theorem C2_weapon_gating_invariant_fails :
    ¬ (∀ s : MotorController, Reachable s → 0 < s.weapon_speed → s.weapon_armed = true) := by
  intro h
  have hr : Reachable (runOps (motor_controller_init 0)
      [MCOp.disarmWeapon, MCOp.setWeapon 80 0]) :=
    ⟨0, [MCOp.disarmWeapon, MCOp.setWeapon 80 0], rfl⟩
  have harm := h _ hr (by decide)
  exact absurd harm (by decide)

/-- C2 (amended): in every reachable state the weapon speed lies within
[0, MOTOR_MAX_SPEED], and `disarm_weapon` (and therefore `stop_all`) always
forces the stored weapon speed to 0; the stronger gating invariant
"weapon_speed > 0 implies weapon_armed" does not hold because `set_weapon`
forwards commands regardless of the arming flag. -/
theorem C2_weapon_speed_bounded (s : MotorController) (h : Reachable s) :
    (0 ≤ s.weapon_speed ∧ s.weapon_speed ≤ 100) ∧
    (motor_controller_disarm_weapon s).weapon_speed = 0 ∧
    (motor_controller_stop_all s).weapon_speed = 0 := by
  obtain ⟨now, ops, rfl⟩ := h
  refine ⟨weaponSpeedInv_runOps _ ops ?_, rfl, rfl⟩
  exact ⟨le_refl 0, by simp [motor_controller_init]⟩

/-- C2 (witness): the amended theorem applied to the reachable state with the
weapon running at 80 while disarmed. -/
theorem C2_weapon_speed_bounded_witness :
    Reachable (runOps (motor_controller_init 0) [MCOp.disarmWeapon, MCOp.setWeapon 80 0]) ∧
    ((0 ≤ (runOps (motor_controller_init 0)
        [MCOp.disarmWeapon, MCOp.setWeapon 80 0]).weapon_speed ∧
      (runOps (motor_controller_init 0)
        [MCOp.disarmWeapon, MCOp.setWeapon 80 0]).weapon_speed ≤ 100) ∧
     (motor_controller_disarm_weapon (runOps (motor_controller_init 0)
        [MCOp.disarmWeapon, MCOp.setWeapon 80 0])).weapon_speed = 0 ∧
     (motor_controller_stop_all (runOps (motor_controller_init 0)
        [MCOp.disarmWeapon, MCOp.setWeapon 80 0])).weapon_speed = 0) :=
  ⟨⟨0, [MCOp.disarmWeapon, MCOp.setWeapon 80 0], rfl⟩,
   C2_weapon_speed_bounded _ ⟨0, [MCOp.disarmWeapon, MCOp.setWeapon 80 0], rfl⟩⟩

/-- C3: with the failsafe enabled and FAILSAFE_TIMEOUT_MS = 500, a check more
than 500 ms after the last accepted command invokes stop_all exactly once (the
ghost counter increments by one); a repeated check while still stale leaves the
state completely unchanged (stop_all is not invoked again); an accepted command
(here set_left) then resets the command timestamp and clears the triggered
flag, so that a later check more than 500 ms after it invokes stop_all a second
time. -/
theorem C3_failsafe_once_per_stale_period (s : MotorController) (t1 t2 : Nat) (v : Int)
    (t3 t4 : Nat)
    (htrig : s.failsafe_triggered = false)
    (h1 : FAILSAFE_TIMEOUT_MS < t1 - s.last_command_time_ms)
    (h2 : t1 ≤ t2)
    (h4 : FAILSAFE_TIMEOUT_MS < t4 - t3) :
    ((motor_controller_check_failsafe s t1).1.stop_all_count = s.stop_all_count + 1) ∧
    ((motor_controller_check_failsafe (motor_controller_check_failsafe s t1).1 t2).1
        = (motor_controller_check_failsafe s t1).1) ∧
    ((motor_controller_set_left (motor_controller_check_failsafe
        (motor_controller_check_failsafe s t1).1 t2).1 v t3).last_command_time_ms = t3) ∧
    ((motor_controller_set_left (motor_controller_check_failsafe
        (motor_controller_check_failsafe s t1).1 t2).1 v t3).failsafe_triggered = false) ∧
    ((motor_controller_check_failsafe (motor_controller_set_left
        (motor_controller_check_failsafe (motor_controller_check_failsafe s t1).1 t2).1
        v t3) t4).1.stop_all_count = s.stop_all_count + 2) := by
  have e1 := check_failsafe_fires s t1 h1 htrig
  have hs1 : (motor_controller_check_failsafe s t1).1
      = { motor_controller_stop_all s with failsafe_triggered := true } := by
    rw [e1]
  have hlast1 : (motor_controller_check_failsafe s t1).1.last_command_time_ms
      = s.last_command_time_ms := by
    rw [hs1]
    rfl
  have htrig1 : (motor_controller_check_failsafe s t1).1.failsafe_triggered = true := by
    rw [hs1]
  have hstale2 : FAILSAFE_TIMEOUT_MS
      < t2 - (motor_controller_check_failsafe s t1).1.last_command_time_ms := by
    rw [hlast1]
    omega
  have e2 := check_failsafe_already_triggered _ t2 hstale2 htrig1
  have hs2 : (motor_controller_check_failsafe (motor_controller_check_failsafe s t1).1 t2).1
      = (motor_controller_check_failsafe s t1).1 := by
    rw [e2]
  refine ⟨by rw [hs1]; rfl, hs2, rfl, rfl, ?_⟩
  have e3 := check_failsafe_fires
    (motor_controller_set_left (motor_controller_check_failsafe
      (motor_controller_check_failsafe s t1).1 t2).1 v t3) t4
    (by rw [set_left_last_command]; exact h4) (set_left_triggered _ v t3)
  rw [e3]
  show (motor_controller_stop_all _).stop_all_count = s.stop_all_count + 2
  rw [stop_all_count_succ, set_left_count, hs2]
  rw [hs1]
  rfl

/-- C3 (witness): the failsafe theorem on the concrete trace init at 0, checks
at 501 and 502, set_left at 600, check at 1101. -/
theorem C3_failsafe_once_per_stale_period_witness :
    ((motor_controller_init 0).failsafe_triggered = false ∧
     FAILSAFE_TIMEOUT_MS < 501 - (motor_controller_init 0).last_command_time_ms ∧
     501 ≤ 502 ∧ FAILSAFE_TIMEOUT_MS < 1101 - 600) ∧
    (((motor_controller_check_failsafe (motor_controller_init 0) 501).1.stop_all_count
        = (motor_controller_init 0).stop_all_count + 1) ∧
     ((motor_controller_check_failsafe
        (motor_controller_check_failsafe (motor_controller_init 0) 501).1 502).1
        = (motor_controller_check_failsafe (motor_controller_init 0) 501).1) ∧
     ((motor_controller_set_left (motor_controller_check_failsafe
        (motor_controller_check_failsafe (motor_controller_init 0) 501).1 502).1
        50 600).last_command_time_ms = 600) ∧
     ((motor_controller_set_left (motor_controller_check_failsafe
        (motor_controller_check_failsafe (motor_controller_init 0) 501).1 502).1
        50 600).failsafe_triggered = false) ∧
     ((motor_controller_check_failsafe (motor_controller_set_left
        (motor_controller_check_failsafe
          (motor_controller_check_failsafe (motor_controller_init 0) 501).1 502).1
        50 600) 1101).1.stop_all_count = (motor_controller_init 0).stop_all_count + 2)) :=
  ⟨⟨rfl, by decide, by decide, by decide⟩,
   C3_failsafe_once_per_stale_period (motor_controller_init 0) 501 502 50 600 1101
     rfl (by decide) (by decide) (by decide)⟩

/-- Floor of half of a natural number cast into the rationals. -/
lemma floor_half_natCast (d : Nat) : (⌊(1/2 : Rat) * (d : Rat)⌋).toNat = d / 2 := by
  have h1 : (1/2 : Rat) * (d : Rat) = ((d : Int) : Rat) / ((2 : Nat) : Rat) := by
    push_cast
    ring
  rw [h1, Rat.floor_intCast_div_natCast]
  omega

/-- C7 (counterexample): `motor_set_speed` never reads `mid_us`. For a motor
with bounds min 1000, mid 1300, max 2000, bidirectional speed 0 produces the
pulse 1500 (the midpoint of min and max), not the configured mid_us = 1300. -/
theorem C7_speed_zero_ignores_mid_us :
    (motor_init 1000 1300 2000).mid_us = 1300 ∧
    (motor_set_speed (motor_init 1000 1300 2000) 0 true).hw_level = 1500 ∧
    (motor_set_speed (motor_init 1000 1300 2000) 0 true).hw_level
      ≠ (motor_init 1000 1300 2000).mid_us := by
  refine ⟨rfl, ?_, ?_⟩ <;>
  · simp [motor_set_speed, motor_set_throttle, motor_set_pulse_us, motor_init,
      ESC_ABS_MIN_US, ESC_ABS_MAX_US, MOTOR_INVERT_SIGNAL, PWM_WRAP]
    norm_num
    decide

/-- C7 (amended): for every motor whose pulse bounds lie inside the absolute
safety range, bidirectional `motor_set_speed` maps speed -100 to min_us,
speed 100 to max_us, and speed 0 to the midpoint min_us + (max_us - min_us) / 2
— which coincides with mid_us exactly when mid_us is centred, as it is for
every motor configured in this firmware — while unidirectional mode discards
the sign: speeds -100 and 100 map to max_us and speed 0 maps to min_us. -/
theorem C7_set_speed_pinned_points (m : Motor)
    (h1 : ESC_ABS_MIN_US ≤ m.min_us) (h2 : m.min_us ≤ m.max_us)
    (h3 : m.max_us ≤ ESC_ABS_MAX_US) :
    (motor_set_speed m (-100) true).hw_level = m.min_us ∧
    (motor_set_speed m 0 true).hw_level = m.min_us + (m.max_us - m.min_us) / 2 ∧
    (motor_set_speed m 100 true).hw_level = m.max_us ∧
    (motor_set_speed m (-100) false).hw_level = m.max_us ∧
    (motor_set_speed m 0 false).hw_level = m.min_us ∧
    (motor_set_speed m 100 false).hw_level = m.max_us := by
  simp only [ESC_ABS_MIN_US] at h1
  simp only [ESC_ABS_MAX_US] at h3
  have hc : ((m.max_us : Rat) - (m.min_us : Rat)) = ((m.max_us - m.min_us : Nat) : Rat) := by
    rw [Nat.cast_sub h2]
  refine ⟨?_, ?_, ?_, ?_, ?_, ?_⟩ <;>
  · simp only [motor_set_speed, motor_set_throttle, motor_set_pulse_us,
      ESC_ABS_MIN_US, ESC_ABS_MAX_US, MOTOR_INVERT_SIGNAL, PWM_WRAP]
    norm_num [hc, floor_half_natCast]
    split_ifs <;> omega

/-- C7 (witness): the pinned-point theorem applied to the drive motor with
bounds 1000/1500/2000. -/
theorem C7_set_speed_pinned_points_witness :
    (ESC_ABS_MIN_US ≤ (motor_init DRIVE_MIN_US DRIVE_MID_US DRIVE_MAX_US).min_us ∧
     (motor_init DRIVE_MIN_US DRIVE_MID_US DRIVE_MAX_US).min_us
       ≤ (motor_init DRIVE_MIN_US DRIVE_MID_US DRIVE_MAX_US).max_us ∧
     (motor_init DRIVE_MIN_US DRIVE_MID_US DRIVE_MAX_US).max_us ≤ ESC_ABS_MAX_US) ∧
    ((motor_set_speed (motor_init DRIVE_MIN_US DRIVE_MID_US DRIVE_MAX_US) (-100) true).hw_level
        = (motor_init DRIVE_MIN_US DRIVE_MID_US DRIVE_MAX_US).min_us ∧
     (motor_set_speed (motor_init DRIVE_MIN_US DRIVE_MID_US DRIVE_MAX_US) 0 true).hw_level
        = (motor_init DRIVE_MIN_US DRIVE_MID_US DRIVE_MAX_US).min_us +
          ((motor_init DRIVE_MIN_US DRIVE_MID_US DRIVE_MAX_US).max_us -
           (motor_init DRIVE_MIN_US DRIVE_MID_US DRIVE_MAX_US).min_us) / 2 ∧
     (motor_set_speed (motor_init DRIVE_MIN_US DRIVE_MID_US DRIVE_MAX_US) 100 true).hw_level
        = (motor_init DRIVE_MIN_US DRIVE_MID_US DRIVE_MAX_US).max_us ∧
     (motor_set_speed (motor_init DRIVE_MIN_US DRIVE_MID_US DRIVE_MAX_US) (-100) false).hw_level
        = (motor_init DRIVE_MIN_US DRIVE_MID_US DRIVE_MAX_US).max_us ∧
     (motor_set_speed (motor_init DRIVE_MIN_US DRIVE_MID_US DRIVE_MAX_US) 0 false).hw_level
        = (motor_init DRIVE_MIN_US DRIVE_MID_US DRIVE_MAX_US).min_us ∧
     (motor_set_speed (motor_init DRIVE_MIN_US DRIVE_MID_US DRIVE_MAX_US) 100 false).hw_level
        = (motor_init DRIVE_MIN_US DRIVE_MID_US DRIVE_MAX_US).max_us) :=
  ⟨⟨by decide, by decide, by decide⟩,
   C7_set_speed_pinned_points (motor_init DRIVE_MIN_US DRIVE_MID_US DRIVE_MAX_US)
     (by decide) (by decide) (by decide)⟩

/-! Characterisation lemmas for the platform input handler. -/

lemma process_press_starts_countdown (p : PlatformState) (gp : uni_gamepad) (now : Nat)
    (harm : p.mc.weapon_armed = false) (hbh : p.bumpers_held = false)
    (hl : gp.button_shoulder_l = true) (hr : gp.button_shoulder_r = true)
    (hx : gp.misc_button_system = false) :
    process_controller_input p gp now =
      { p with
        bumpers_held := true,
        mc := motor_controller_set_weapon
                (motor_controller_tank_drive p.mc
                  (map_range gp.axis_y STICK_MIN STICK_MAX (-100) 100 * THROTTLE_INVERT)
                  (map_range gp.axis_ry STICK_MIN STICK_MAX (-100) 100 * THROTTLE_INVERT) now)
                (map_range gp.throttle 0 TRIGGER_MAX 0 100) now,
        arm_hold_start := now, arm_hold_active := true,
        last_countdown := (ARM_HOLD_TIME_MS : Int) / 1000 + 1,
        prev_misc_system := false } := by
  simp [process_controller_input, motor_controller_is_weapon_armed, hl, hr, hx, hbh, harm]

lemma process_release_cancels (p : PlatformState) (gp : uni_gamepad) (now : Nat)
    (hbh : p.bumpers_held = true)
    (hl : gp.button_shoulder_l = false)
    (hx : gp.misc_button_system = false) :
    process_controller_input p gp now =
      { p with
        bumpers_held := false,
        mc := motor_controller_set_weapon
                (motor_controller_tank_drive p.mc
                  (map_range gp.axis_y STICK_MIN STICK_MAX (-100) 100 * THROTTLE_INVERT)
                  (map_range gp.axis_ry STICK_MIN STICK_MAX (-100) 100 * THROTTLE_INVERT) now)
                (map_range gp.throttle 0 TRIGGER_MAX 0 100) now,
        arm_hold_active := false, last_countdown := -1,
        prev_misc_system := false } := by
  simp [process_controller_input, motor_controller_is_weapon_armed, hl, hx, hbh]

lemma check_arming_arms_at_hold (p : PlatformState) (now : Nat)
    (hbh : p.bumpers_held = true) (hact : p.arm_hold_active = true)
    (harm : p.mc.weapon_armed = false)
    (ht : ARM_HOLD_TIME_MS ≤ now - p.arm_hold_start) :
    check_arming_countdown p now =
      { p with mc := motor_controller_arm_weapon p.mc, last_countdown := -1 } := by
  simp [check_arming_countdown, motor_controller_is_weapon_armed, hbh, hact, harm, ht]

/-- C4 (counterexample): cancelling the hold does not zero the weapon output.
In the concrete trace that starts a countdown at 300 ms with the trigger held
at full, releasing the bumpers at 5299 ms (elapsed 4999 = ARM_HOLD_TIME_MS - 1)
cancels the countdown and stays disarmed, but the stored weapon speed remains
100, not the 0 the claim requires. -/
theorem C4_cancel_keeps_weapon_output :
    (arming_cancel_press.arm_hold_active = true ∧
     arming_cancel_press.arm_hold_start = 300 ∧
     arming_cancel_press.mc.weapon_armed = false) ∧
    (arming_cancel_release.arm_hold_active = false ∧
     arming_cancel_release.bumpers_held = false ∧
     arming_cancel_release.mc.weapon_armed = false ∧
     arming_cancel_release.mc.weapon_speed = 100 ∧
     arming_cancel_release.mc.weapon_speed ≠ 0) := by
  refine ⟨⟨by decide, by decide, by decide⟩,
    by decide, by decide, by decide, by decide, by decide⟩

/-- C4 (amended): from a disarmed state with no hold in progress, a bumper
press-edge starts the hold countdown at the press time; holding continuously
until elapsed time reaches exactly ARM_HOLD_TIME_MS at a tick arms the weapon;
releasing the bumpers before that (at ARM_HOLD_TIME_MS - 1 or earlier) cancels
the countdown and stays disarmed, while the weapon output is left at whatever
the trigger commands (it is not forced to 0, since set_weapon is ungated in
this firmware). -/
theorem C4_hold_to_arm_and_cancel (p : PlatformState) (gp gp2 : uni_gamepad) (t0 t1 : Nat)
    (harm : p.mc.weapon_armed = false) (hbh : p.bumpers_held = false)
    (hact : p.arm_hold_active = false)
    (hl : gp.button_shoulder_l = true) (hr : gp.button_shoulder_r = true)
    (hx : gp.misc_button_system = false)
    (hl2 : gp2.button_shoulder_l = false) (hx2 : gp2.misc_button_system = false)
    (hrel : t1 - t0 ≤ ARM_HOLD_TIME_MS - 1) :
    ((process_controller_input p gp t0).bumpers_held = true ∧
     (process_controller_input p gp t0).arm_hold_active = true ∧
     (process_controller_input p gp t0).arm_hold_start = t0 ∧
     (process_controller_input p gp t0).mc.weapon_armed = false) ∧
    (check_arming_countdown (process_controller_input p gp t0)
        (t0 + ARM_HOLD_TIME_MS)).mc.weapon_armed = true ∧
    ((process_controller_input (process_controller_input p gp t0) gp2 t1).arm_hold_active
        = false ∧
     (process_controller_input (process_controller_input p gp t0) gp2 t1).bumpers_held
        = false ∧
     (process_controller_input (process_controller_input p gp t0) gp2 t1).mc.weapon_armed
        = false ∧
     (process_controller_input (process_controller_input p gp t0) gp2 t1).mc.weapon_speed
        = clamp (map_range gp2.throttle 0 TRIGGER_MAX 0 100) 0 MOTOR_MAX_SPEED) := by
  have hp1 := process_press_starts_countdown p gp t0 harm hbh hl hr hx
  have hbh1 : (process_controller_input p gp t0).bumpers_held = true := by rw [hp1]
  have hact1 : (process_controller_input p gp t0).arm_hold_active = true := by rw [hp1]
  have hstart1 : (process_controller_input p gp t0).arm_hold_start = t0 := by rw [hp1]
  have harm1 : (process_controller_input p gp t0).mc.weapon_armed = false := by
    rw [hp1]
    simp [harm]
  have hp2 := process_release_cancels (process_controller_input p gp t0) gp2 t1 hbh1 hl2 hx2
  refine ⟨⟨hbh1, hact1, hstart1, harm1⟩, ?_, ?_, ?_, ?_, ?_⟩
  · rw [check_arming_arms_at_hold _ _ hbh1 hact1 harm1 (by rw [hstart1]; omega)]
    simp
  · rw [hp2]
  · rw [hp2]
  · rw [hp2]
    simp [harm1]
  · rw [hp2]
    simp

/-- C4 (witness): the hold-to-arm theorem on the disarmed platform state with
a press at 100 ms and a release at 4000 ms. -/
theorem C4_hold_to_arm_and_cancel_witness :
    (platform_disarmed.mc.weapon_armed = false ∧
     platform_disarmed.bumpers_held = false ∧
     platform_disarmed.arm_hold_active = false ∧
     gp_press_trigger_high.button_shoulder_l = true ∧
     gp_press_trigger_high.button_shoulder_r = true ∧
     gp_press_trigger_high.misc_button_system = false ∧
     gp_release_trigger_high.button_shoulder_l = false ∧
     gp_release_trigger_high.misc_button_system = false ∧
     4000 - 100 ≤ ARM_HOLD_TIME_MS - 1) ∧
    (((process_controller_input platform_disarmed gp_press_trigger_high 100).bumpers_held
        = true ∧
      (process_controller_input platform_disarmed gp_press_trigger_high 100).arm_hold_active
        = true ∧
      (process_controller_input platform_disarmed gp_press_trigger_high 100).arm_hold_start
        = 100 ∧
      (process_controller_input platform_disarmed gp_press_trigger_high 100).mc.weapon_armed
        = false) ∧
     (check_arming_countdown (process_controller_input platform_disarmed gp_press_trigger_high
        100) (100 + ARM_HOLD_TIME_MS)).mc.weapon_armed = true ∧
     ((process_controller_input (process_controller_input platform_disarmed
          gp_press_trigger_high 100) gp_release_trigger_high 4000).arm_hold_active = false ∧
      (process_controller_input (process_controller_input platform_disarmed
          gp_press_trigger_high 100) gp_release_trigger_high 4000).bumpers_held = false ∧
      (process_controller_input (process_controller_input platform_disarmed
          gp_press_trigger_high 100) gp_release_trigger_high 4000).mc.weapon_armed = false ∧
      (process_controller_input (process_controller_input platform_disarmed
          gp_press_trigger_high 100) gp_release_trigger_high 4000).mc.weapon_speed
        = clamp (map_range gp_release_trigger_high.throttle 0 TRIGGER_MAX 0 100)
            0 MOTOR_MAX_SPEED)) :=
  ⟨⟨by decide, rfl, rfl, rfl, rfl, rfl, rfl, rfl, by decide⟩,
   C4_hold_to_arm_and_cancel platform_disarmed gp_press_trigger_high gp_release_trigger_high
     100 4000 (by decide) rfl rfl rfl rfl rfl rfl rfl (by decide)⟩

end Wit
